import Mathlib

/-!
Verification of the Geozona geometry pipeline (`src/services/geoService.ts`,
which contains two implementations: a promise-based variant and an async
generator variant) against its natural-language specification.

JavaScript numbers are modelled as exact rationals (ℚ); strings as Lean
`String`.  Library calls (SheetJS, Turf.js) are external: their outputs are
inputs to the modelled repository code.
-/

namespace Geozona

/-- Whitespace as recognised by JavaScript string trimming / `parseFloat`
(space, tab, LF, CR, VT, FF, NBSP, BOM). -/
def isJsSpace (c : Char) : Bool :=
  c == ' ' || c == '\t' || c == '\n' || c == '\r' || c == '\x0b' ||
  c == '\x0c' || c.toNat == 0xa0 || c.toNat == 0xfeff

/-- JavaScript `String#trim`: drop whitespace from both ends. -/
def trimList (l : List Char) : List Char :=
  ((l.dropWhile isJsSpace).reverse.dropWhile isJsSpace).reverse

/-- JavaScript `String#includes(',')`. -/
def jsIncludesComma (s : String) : Bool := s.toList.contains ','

/-- JavaScript `String#replace(',', '.')` — replaces only the FIRST comma. -/
def replaceFirstCommaList : List Char → List Char
  | [] => []
  | c :: cs => if c = ',' then '.' :: cs else c :: replaceFirstCommaList cs

/-- JavaScript `String#replace(',', '.')` on a `String`. -/
def jsReplaceFirstComma (s : String) : String :=
  String.mk (replaceFirstCommaList s.toList)

/-- JavaScript `String#split(',')`: split on every comma, keeping empty parts. -/
def splitOnCommaList : List Char → List (List Char)
  | [] => [[]]
  | c :: cs =>
    if c = ',' then [] :: splitOnCommaList cs
    else
      match splitOnCommaList cs with
      | r :: rs => (c :: r) :: rs
      | [] => [[c]]

/-- JavaScript `String#toLowerCase` per character, for the alphabets that
occur in this program (ASCII and the Cyrillic block used by the header
keywords). -/
def jsCharToLower (c : Char) : Char :=
  if 'A' ≤ c ∧ c ≤ 'Z' then Char.ofNat (c.toNat + 32)
  else if 0x410 ≤ c.toNat ∧ c.toNat ≤ 0x42f then Char.ofNat (c.toNat + 0x20)
  else if c.toNat = 0x401 then Char.ofNat 0x451
  else c

/-- JavaScript `String#toLowerCase` on a `String`. -/
def jsToLower (s : String) : String := String.mk (s.toList.map jsCharToLower)

/-- Leading decimal digits of a character list, with the rest. -/
def takeDigits : List Char → List ℕ × List Char
  | [] => ([], [])
  | c :: cs =>
    if c.isDigit then
      ((c.toNat - 48) :: (takeDigits cs).1, (takeDigits cs).2)
    else ([], c :: cs)

/-- Value of a most-significant-first digit list. -/
def digitsToNat (ds : List ℕ) : ℕ := ds.foldl (fun a d => 10 * a + d) 0

/-- Optional leading sign; returns the sign as ±1 and the rest. -/
def parseSignChars : List Char → ℤ × List Char
  | '-' :: cs => (-1, cs)
  | '+' :: cs => (1, cs)
  | cs => (1, cs)

/-- Exponent suffix of a JavaScript float literal (`e`/`E`, optional sign,
digits); `0` when absent or not followed by a digit (JavaScript `parseFloat`
then keeps only the mantissa prefix). -/
def parseExponentChars (cs : List Char) : ℤ :=
  match cs with
  | c :: rest =>
    if c = 'e' ∨ c = 'E' then
      let sr := parseSignChars rest
      let dr := takeDigits sr.2
      if dr.1 = [] then 0 else sr.1 * (digitsToNat dr.1 : ℤ)
    else 0
  | [] => 0

/-- Model of JavaScript `parseFloat` over exact rationals: skip leading
whitespace, optional sign, decimal digits with optional fraction and
exponent; `none` models `NaN` (no digit in the mantissa).  The model omits
the `Infinity` literal, which no claim depends on. -/
def parseFloatChars (cs0 : List Char) : Option ℚ :=
  let cs := cs0.dropWhile isJsSpace
  let sc := parseSignChars cs
  let ip := takeDigits sc.2
  let fp :=
    match ip.2 with
    | '.' :: rest => takeDigits rest
    | _ => (([] : List ℕ), ip.2)
  if ip.1 = [] ∧ fp.1 = [] then none
  else
    let mant : ℚ := (digitsToNat ip.1 : ℚ) + (digitsToNat fp.1 : ℚ) / (10 : ℚ) ^ fp.1.length
    some ((sc.1 : ℚ) * mant * (10 : ℚ) ^ parseExponentChars fp.2)

/-- JavaScript `parseFloat` on a `String`. -/
def jsParseFloat (s : String) : Option ℚ := parseFloatChars s.toList

/-- Fractional decimal digits of `0 ≤ q`, stopping at a zero remainder or
after `fuel` digits. -/
def fracDigits : ℕ → ℚ → List ℕ
  | 0, _ => []
  | fuel + 1, q =>
    if q = 0 then []
    else (⌊q * 10⌋).toNat :: fracDigits fuel (q * 10 - (⌊q * 10⌋ : ℚ))

/-- Model of JavaScript default number→string conversion (template literals,
`String(x)`) for non-negative rationals.  JavaScript prints the shortest
decimal that round-trips through the IEEE double; for values with a short
terminating decimal expansion — the only ones the theorems below evaluate —
that is exactly the expansion with no trailing zeros, which this function
produces (20 fractional digits of fuel). -/
def jsNumToStringNonneg (q : ℚ) : String :=
  let ds := fracDigits 20 (q - (⌊q⌋ : ℚ))
  Nat.repr (⌊q⌋).toNat ++
    (if ds = [] then "" else "." ++ String.mk (ds.map Nat.digitChar))

/-- Model of JavaScript default number→string conversion. -/
def jsNumToString (q : ℚ) : String :=
  if q < 0 then "-" ++ jsNumToStringNonneg (-q) else jsNumToStringNonneg q

/-- The rounded scaled magnitude used by `toFixed(6)`: the integer closest
to `|q| · 10⁶`, ties away from zero (the ECMAScript "larger n" rule). -/
def toFixedRound (q : ℚ) : ℕ := (⌊|q| * 1000000 + 1 / 2⌋).toNat

/-- Integer part (with sign) of `q.toFixed(6)`. -/
def toFixedIntPart (q : ℚ) : String :=
  (if q < 0 then "-" else "") ++ Nat.repr (toFixedRound q / 1000000)

/-- The six fractional digit characters of `m % 10⁶`, zero padded. -/
def sixFracChars (m : ℕ) : List Char :=
  [Nat.digitChar (m / 100000 % 10), Nat.digitChar (m / 10000 % 10),
   Nat.digitChar (m / 1000 % 10), Nat.digitChar (m / 100 % 10),
   Nat.digitChar (m / 10 % 10), Nat.digitChar (m % 10)]

/-- Fractional part of `q.toFixed(6)`: exactly six digits. -/
def toFixedFrac (q : ℚ) : String := String.mk (sixFracChars (toFixedRound q))

/-- Model of JavaScript `Number#toFixed(6)` over exact rationals. -/
def toFixed6 (q : ℚ) : String := toFixedIntPart q ++ "." ++ toFixedFrac q

/-! ## Data model -/

/-- A geographic point; the code stores coordinates as `[lon, lat]` arrays
(GeoJSON order) but always reads them back into latitude/longitude roles,
which is what the fields record. -/
structure GeoPoint where
  lat : ℚ
  lon : ℚ
deriving DecidableEq

/-- A spreadsheet cell as produced by `XLSX.utils.sheet_to_json(…, {header: 1})`:
a string or a number. -/
inductive Cell where
  | str (s : String)
  | num (q : ℚ)
deriving DecidableEq

/-- JavaScript `String(cell)`. -/
def cellToString : Cell → String
  | .str s => s
  | .num q => jsNumToString q

/-- JavaScript `String(row[i])`: out-of-range access gives `undefined`,
whose string conversion is `"undefined"` (which then parses as NaN). -/
def getCellStr (row : List Cell) (i : ℕ) : String :=
  match row.get? i with
  | some c => cellToString c
  | none => "undefined"

/-- The error outcomes of the pipeline, identified in the code by their
(Russian) message strings. -/
inductive GeoError where
  | insufficientPoints
  | hullFailed
  | noPolygonGeometry
  | regionTooSmall
  | noPointsInRegion
  | processingError
deriving DecidableEq

/-- Output unit: `{name, content}` as in `types.ts` (`OutputFile`). -/
structure OutputFile where
  name : String
  content : String
deriving DecidableEq

/-! ## Coordinate extraction, promise variant (`parseExcelToGeoJson`, first
implementation).  Per row: a first string cell containing a comma is parsed
as a single `"lat,lon"` cell; otherwise a row with at least two cells is
parsed positionally.  Rows failing both layouts yield nothing. -/

/-- Case 1 of the first `parseExcelToGeoJson`: `row[0].split(',')`, each part
trimmed and `parseFloat`ed; accepted only with exactly two numeric parts. -/
def singleCellParse1 (s : String) : Option GeoPoint :=
  match (splitOnCommaList s.toList).map (fun t => parseFloatChars (trimList t)) with
  | [some a, some b] => some ⟨a, b⟩
  | _ => none

/-- Case 2 of the first `parseExcelToGeoJson`: `parseFloat(String(row[0]))`
and `parseFloat(String(row[1]))`, requiring at least two cells. -/
def twoColParse1 (row : List Cell) : Option GeoPoint :=
  if 2 ≤ row.length then
    match parseFloatChars (getCellStr row 0).toList,
          parseFloatChars (getCellStr row 1).toList with
    | some a, some b => some ⟨a, b⟩
    | _, _ => none
  else none

/-- One loop iteration of the first `parseExcelToGeoJson`: empty rows are
skipped; a first *string* cell containing a comma selects case 1,
otherwise case 2 applies. -/
def rowToPoint1 : List Cell → Option GeoPoint
  | [] => none
  | Cell.str s :: rest =>
    if jsIncludesComma s then singleCellParse1 s
    else twoColParse1 (Cell.str s :: rest)
  | Cell.num q :: rest => twoColParse1 (Cell.num q :: rest)

/-- The coordinate list accumulated by the first `parseExcelToGeoJson`. -/
def points1 (rows : List (List Cell)) : List GeoPoint :=
  rows.filterMap rowToPoint1

/-- The first `parseExcelToGeoJson` up to its minimum-point check (the
convex-hull step that follows is a Turf.js library call). -/
def parseExcelPoints1 (rows : List (List Cell)) : Except GeoError (List GeoPoint) :=
  if (points1 rows).length < 3 then Except.error GeoError.insufficientPoints
  else Except.ok (points1 rows)

/-! ## Coordinate extraction, generator-file variant (second
`parseExcelToGeoJson`): optional header detection, then per row either
header-indexed parsing or the positional fallback. -/

/-- Recognised latitude header names. -/
def latKeys : List String := ["lat", "latitude", "широта"]

/-- Recognised longitude header names. -/
def lonKeys : List String := ["lon", "lng", "longitude", "долгота"]

/-- The `forEach` scan over the header row: the LAST matching column wins. -/
def findKeyIdx (keys : List String) : List Cell → ℕ → Option ℕ → Option ℕ
  | [], _, acc => acc
  | c :: cs, i, acc =>
    findKeyIdx keys cs (i + 1)
      (if keys.contains (jsToLower (cellToString c)) then some i else acc)

/-- Header indices `(latIndex, lonIndex)` from the first row (when any);
`none` models `-1`. -/
def headerIdx (rows : List (List Cell)) : Option ℕ × Option ℕ :=
  match rows with
  | [] => (none, none)
  | header :: _ =>
    (findKeyIdx latKeys header 0 none, findKeyIdx lonKeys header 0 none)

/-- Header-indexed parsing: `parseFloat(String(row[i]).replace(',', '.'))`
for each of the two recognised columns. -/
def headerParse2 (i j : ℕ) (row : List Cell) : Option GeoPoint :=
  match parseFloatChars (replaceFirstCommaList (getCellStr row i).toList),
        parseFloatChars (replaceFirstCommaList (getCellStr row j).toList) with
  | some a, some b => some ⟨a, b⟩
  | _, _ => none

/-- Single comma-separated cell in the fallback of the second variant: parts
are trimmed, decimal-comma normalised (a no-op after the split) and parsed. -/
def singleCellParse2 (s : String) : Option GeoPoint :=
  match (splitOnCommaList s.toList).map
          (fun t => parseFloatChars (replaceFirstCommaList (trimList t))) with
  | [some a, some b] => some ⟨a, b⟩
  | _ => none

/-- Two-column fallback of the second variant (with decimal-comma
normalisation). -/
def twoColParse2 (row : List Cell) : Option GeoPoint :=
  if 2 ≤ row.length then
    match parseFloatChars (replaceFirstCommaList (getCellStr row 0).toList),
          parseFloatChars (replaceFirstCommaList (getCellStr row 1).toList) with
    | some a, some b => some ⟨a, b⟩
    | _, _ => none
  else none

/-- The positional fallback of the second variant: a comma in
`String(row[0])` selects the single-cell layout, else two columns. -/
def fallbackParse2 (row : List Cell) : Option GeoPoint :=
  if jsIncludesComma (getCellStr row 0) then singleCellParse2 (getCellStr row 0)
  else twoColParse2 row

/-- One loop iteration of the second `parseExcelToGeoJson`: empty rows are
skipped; header-indexed parsing applies only when BOTH indices were found. -/
def rowToPoint2 (li lo : Option ℕ) : List Cell → Option GeoPoint
  | [] => none
  | c :: rest =>
    match li, lo with
    | some i, some j => headerParse2 i j (c :: rest)
    | _, _ => fallbackParse2 (c :: rest)

/-- The point list accumulated by the second `parseExcelToGeoJson`. -/
def points2 (rows : List (List Cell)) : List GeoPoint :=
  rows.filterMap (rowToPoint2 (headerIdx rows).1 (headerIdx rows).2)

/-- The second `parseExcelToGeoJson` up to its minimum-point check. -/
def parseExcelPoints2 (rows : List (List Cell)) : Except GeoError (List GeoPoint) :=
  if (points2 rows).length < 3 then Except.error GeoError.insufficientPoints
  else Except.ok (points2 rows)

/-! ## Boundary normalization (`generatePointsFromGeoJson`, both variants) -/

/-- The geometry `type` tags distinguished by the code. -/
inductive GeomType where
  | polygon
  | multiPolygon
  | point
  | lineString
deriving DecidableEq

/-- A GeoJSON geometry: its `type` tag plus an identifier standing for the
rest of the geometry object (coordinates etc.), which normalization passes
through untouched. -/
structure Geometry where
  gtype : GeomType
  gid : ℕ
deriving DecidableEq

/-- `g.type === 'Polygon' || g.type === 'MultiPolygon'`. -/
def isPolyType (g : Geometry) : Bool :=
  g.gtype = GeomType.polygon ∨ g.gtype = GeomType.multiPolygon

/-- Parsed GeoJSON root: a bare geometry, a feature (geometry possibly
null), or a feature collection of features. -/
inductive GeoJsonInput where
  | geometry (g : Geometry)
  | feature (geom : Option Geometry)
  | featureCollection (features : List (Option Geometry))

/-- `features.find(f => f.geometry && (Polygon ∨ MultiPolygon))`, returning
the found feature's geometry. -/
def firstPolyGeom : List (Option Geometry) → Option Geometry
  | [] => none
  | some g :: rest => if isPolyType g then some g else firstPolyGeom rest
  | none :: rest => firstPolyGeom rest

/-- Boundary selection of the promise variant: a feature collection yields
its first polygonal feature; a feature is used only when its geometry is a
Polygon/MultiPolygon; a bare Polygon/MultiPolygon is wrapped (`turf.feature`)
and used; anything else throws the no-polygon-geometry error. -/
def promiseNormalize : GeoJsonInput → Except GeoError Geometry
  | .featureCollection fs =>
    match firstPolyGeom fs with
    | some g => Except.ok g
    | none => Except.error GeoError.noPolygonGeometry
  | .feature (some g) =>
    if isPolyType g then Except.ok g else Except.error GeoError.noPolygonGeometry
  | .feature none => Except.error GeoError.noPolygonGeometry
  | .geometry g =>
    if isPolyType g then Except.ok g else Except.error GeoError.noPolygonGeometry

/-- Whether an error's message string starts with `'Не удалось'`: true for
the region-too-small and no-points messages, false for the
no-polygon-geometry message (`'В предоставленных данных…'`). -/
def msgStartsWithNeUdalos : GeoError → Bool
  | .regionTooSmall => true
  | .noPointsInRegion => true
  | _ => false

/-- The generator's catch-all: errors whose message does not start with
`'Не удалось'` are replaced by the generic geometry-processing error. -/
def generatorWrap (e : GeoError) : GeoError :=
  if msgStartsWithNeUdalos e then e else GeoError.processingError

/-- Boundary selection of the generator variant, as surfaced through its
catch-all: a feature's (non-null) geometry is used UNCONDITIONALLY, with no
type check; a bare Polygon/MultiPolygon is used; a feature collection yields
its first polygonal feature's geometry; otherwise the thrown
no-polygon-geometry error is wrapped into the generic processing error. -/
def generatorNormalize : GeoJsonInput → Except GeoError Geometry
  | .feature (some g) => Except.ok g
  | .feature none => Except.error (generatorWrap GeoError.noPolygonGeometry)
  | .geometry g =>
    if isPolyType g then Except.ok g
    else Except.error (generatorWrap GeoError.noPolygonGeometry)
  | .featureCollection fs =>
    match firstPolyGeom fs with
    | some g => Except.ok g
    | none => Except.error (generatorWrap GeoError.noPolygonGeometry)

/-! ## Inward offset result check.  The offset itself is
`turf.buffer(feature, -radiusKm)` — a library call whose result (possibly
`undefined`, modelled as `none`) is the input of the repository's checks. -/

/-- The coordinate rings of a buffered geometry as the code inspects them. -/
structure BufferResult where
  coordinates : List (List GeoPoint)
deriving DecidableEq

/-- The promise variant's guard: `!buffered ||
buffered.geometry.coordinates.length === 0` throws the region-too-small
error. -/
def checkBuffered1 : Option BufferResult → Except GeoError BufferResult
  | none => Except.error GeoError.regionTooSmall
  | some br =>
    if br.coordinates.length = 0 then Except.error GeoError.regionTooSmall
    else Except.ok br

/-- The generator variant's guard additionally requires a non-empty first
ring (`coordinates[0].length === 0`); its error message starts with
`'Не удалось'` so the catch-all preserves it. -/
def checkBuffered2 : Option BufferResult → Except GeoError BufferResult
  | none => Except.error (generatorWrap GeoError.regionTooSmall)
  | some br =>
    match br.coordinates with
    | [] => Except.error (generatorWrap GeoError.regionTooSmall)
    | ring :: _ =>
      if ring.isEmpty then Except.error (generatorWrap GeoError.regionTooSmall)
      else Except.ok br

/-! ## Formatting, slugging and chunking -/

/-- The fixed batch size (`CHUNK_SIZE` / `pointsPerFile`). -/
def CHUNK_SIZE : ℕ := 200

/-- A character kept by the slug's `[^\w\-]+` removal: `\w` is
`[A-Za-z0-9_]`, so underscores are KEPT. -/
def isWordOrHyphen (c : Char) : Bool :=
  c.isAlpha ∨ c.isDigit ∨ c = '_' ∨ c = '-'

/-- `replace(/\s+/g, '-')`: each maximal whitespace run becomes one hyphen.
The Boolean state records whether the previous character was part of a run. -/
def wsRunsToHyphen : Bool → List Char → List Char
  | _, [] => []
  | prevWs, c :: cs =>
    if isJsSpace c then
      if prevWs then wsRunsToHyphen true cs
      else '-' :: wsRunsToHyphen true cs
    else c :: wsRunsToHyphen false cs

/-- `replace(/\-\-+/g, '-')`: collapse hyphen runs to a single hyphen. -/
def collapseHyphens : Bool → List Char → List Char
  | _, [] => []
  | prevHy, c :: cs =>
    if c = '-' then
      if prevHy then collapseHyphens true cs
      else '-' :: collapseHyphens true cs
    else c :: collapseHyphens false cs

/-- The generator file's `slugify`: lower-case, whitespace runs → hyphen,
strip characters outside `\w`/hyphen, collapse hyphen runs, trim leading and
trailing hyphens. -/
def slugify (s : String) : String :=
  let l1 := s.toList.map jsCharToLower
  let l2 := wsRunsToHyphen false l1
  let l3 := l2.filter isWordOrHyphen
  let l4 := collapseHyphens false l3
  let l5 := l4.dropWhile (· = '-')
  String.mk (l5.reverse.dropWhile (· = '-')).reverse

/-- Promise-variant line format:
`` `${regionName}:${radiusKm}km:${coord[1].toFixed(6)},${coord[0].toFixed(6)}` ``
(`coord` is `[lon, lat]`, so latitude comes first). -/
def formatLine1 (regionName : String) (radiusKm : ℚ) (p : GeoPoint) : String :=
  regionName ++ ":" ++ jsNumToString radiusKm ++ "km:" ++
    toFixed6 p.lat ++ "," ++ toFixed6 p.lon

/-- Generator-variant line format:
`` `${regionSlug}:${radiusKm}km:${p.latitude}, ${p.longitude}` ``
(default number rendering, comma followed by a space). -/
def formatLine2 (regionSlug : String) (radiusKm : ℚ) (p : GeoPoint) : String :=
  regionSlug ++ ":" ++ jsNumToString radiusKm ++ "km:" ++
    jsNumToString p.lat ++ ", " ++ jsNumToString p.lon

/-- The promise variant's formatted lines for the filtered points. -/
def formattedLines1 (regionName : String) (radiusKm : ℚ) (pts : List GeoPoint) : List String :=
  pts.map (formatLine1 regionName radiusKm)

/-- The generator variant's formatted lines for the filtered points. -/
def formattedLines2 (regionName : String) (radiusKm : ℚ) (pts : List GeoPoint) : List String :=
  pts.map (formatLine2 (slugify regionName) radiusKm)

/-- The chunking loop `for (i = 0; i < lines.length; i += CHUNK_SIZE)
{ lines.slice(i, i + CHUNK_SIZE) }`, written with an explicit fuel that the
wrapper instantiates with the list length. -/
def chunksOfFuel : ℕ → List α → List (List α)
  | 0, _ => []
  | _ + 1, [] => []
  | n + 1, x :: xs =>
    (x :: xs).take CHUNK_SIZE :: chunksOfFuel n ((x :: xs).drop CHUNK_SIZE)

/-- The list of batches (each a `slice` of at most `CHUNK_SIZE` lines). -/
def chunksOf (l : List α) : List (List α) := chunksOfFuel l.length l

/-- The file-emission loop: batch number `k` (starting at 1) names the file
`` `${base}_part${k}.txt` `` and its content joins the chunk with `'\n'`. -/
def mkFiles (base : String) : ℕ → List (List String) → List OutputFile
  | _, [] => []
  | k, c :: cs =>
    ⟨base ++ "_part" ++ Nat.repr k ++ ".txt", String.intercalate "\n" c⟩ ::
      mkFiles base (k + 1) cs

/-- Output files of the promise variant: the RAW region name is used in file
names. -/
def outputFiles1 (regionName : String) (radiusKm : ℚ) (pts : List GeoPoint) : List OutputFile :=
  mkFiles regionName 1 (chunksOf (formattedLines1 regionName radiusKm pts))

/-- Output files of the generator variant: the slug is used in file names. -/
def outputFiles2 (regionName : String) (radiusKm : ℚ) (pts : List GeoPoint) : List OutputFile :=
  mkFiles (slugify regionName) 1 (chunksOf (formattedLines2 regionName radiusKm pts))

/-! ## The generator's yield trace -/

/-- A hexagonal grid cell as the generator consumes it: the Turf.js centroid
and the Turf.js point-in-polygon answer against the buffered polygon. -/
structure HexCell where
  centroid : GeoPoint
  inside : Bool

/-- The `GenerationResult` union yielded by the generator; a file event also
records the loop's `fileNumber` (the number written into the file name). -/
inductive GenEvent where
  | progress (value : ℚ)
  | totalFiles (value : ℕ)
  | file (part : ℕ) (f : OutputFile)

/-- The progress yields of the scanning loop: after processing cell number
`k` (1-based), `(k / totalHexagons) * 100` is yielded when `k % 100 === 0`
or `k` is the last index. -/
def progressEvents (total : ℕ) : List GenEvent :=
  (List.range total).filterMap fun j =>
    if (j + 1) % 100 = 0 ∨ j + 1 = total then
      some (GenEvent.progress (((j + 1 : ℕ) : ℚ) / (total : ℚ) * 100))
    else none

/-- The file-yield loop of the generator (same naming as `mkFiles`). -/
def fileEvents (base : String) : ℕ → List (List String) → List GenEvent
  | _, [] => []
  | k, c :: cs =>
    GenEvent.file k ⟨base ++ "_part" ++ Nat.repr k ++ ".txt",
      String.intercalate "\n" c⟩ :: fileEvents base (k + 1) cs

/-- The ordered sequence of values yielded by one run of the generator after
a successful buffer step, given the hex-grid cells (library output): progress
events during the scan, then — if any point was accepted — the `totalFiles`
count (`Math.ceil(lines.length / 200)`) followed by the file events; an
empty point set throws after the progress yields. -/
def generatorTrace (cells : List HexCell) (regionName : String) (radiusKm : ℚ) : List GenEvent :=
  let pts := (cells.filter HexCell.inside).map HexCell.centroid
  if pts.isEmpty then progressEvents cells.length
  else
    let lines := pts.map (formatLine2 (slugify regionName) radiusKm)
    progressEvents cells.length ++
      [GenEvent.totalFiles ((lines.length + CHUNK_SIZE - 1) / CHUNK_SIZE)] ++
      fileEvents (slugify regionName) 1 (chunksOf lines)

/-- The progress percentages of a trace, in order. -/
def progressValues (tr : List GenEvent) : List ℚ :=
  tr.filterMap fun e =>
    match e with
    | GenEvent.progress v => some v
    | _ => none

/-- The file part numbers of a trace, in order. -/
def fileParts (tr : List GenEvent) : List ℕ :=
  tr.filterMap fun e =>
    match e with
    | GenEvent.file k _ => some k
    | _ => none

/-! ## Definitions that follow the SPEC's words, for comparison with the
code-derived definitions above. -/

/-- Modelled from the spec: the claimed slug — lower-case, whitespace runs
to a single hyphen, strip characters outside alphanumerics/hyphen (note: NO
underscore), collapse repeated hyphens, trim leading/trailing hyphens. -/
def claimSlug (s : String) : String :=
  let l1 := s.toList.map jsCharToLower
  let l2 := wsRunsToHyphen false l1
  let l3 := l2.filter fun c => c.isAlpha ∨ c.isDigit ∨ c = '-'
  let l4 := collapseHyphens false l3
  let l5 := l4.dropWhile (· = '-')
  String.mk (l5.reverse.dropWhile (· = '-')).reverse

/-- Modelled from the spec: the claimed line format
`"<label>:<radiusKm>km:<lat>,<lon>"` with the coordinates in
fixed-precision decimal formatting of exactly 6 fractional digits. -/
def claimFormatLine (label : String) (radiusKm : ℚ) (p : GeoPoint) : String :=
  label ++ ":" ++ jsNumToString radiusKm ++ "km:" ++
    toFixed6 p.lat ++ "," ++ toFixed6 p.lon

/-! ## Helper lemmas -/

theorem fracDigits_of_zero (n : ℕ) : fracDigits n 0 = [] := by
  cases n <;> simp [fracDigits]

theorem fracDigits_succ_ne (n : ℕ) (q : ℚ) (h : ¬ q = 0) :
    fracDigits (n + 1) q = (⌊q * 10⌋).toNat :: fracDigits n (q * 10 - (⌊q * 10⌋ : ℚ)) := by
  rw [fracDigits, if_neg h]

theorem jsNumToString_half : jsNumToString (1/2 : ℚ) = "0.5" := by
  have h1 : fracDigits 20 ((1:ℚ)/2 - (⌊(1:ℚ)/2⌋ : ℚ)) = [5] := by
    rw [show ((1:ℚ)/2 - (⌊(1:ℚ)/2⌋ : ℚ)) = 1/2 by norm_num]
    rw [fracDigits_succ_ne _ _ (by norm_num)]
    norm_num [fracDigits_of_zero]
    decide
  rw [jsNumToString, if_neg (by norm_num), jsNumToStringNonneg]
  rw [h1]
  norm_num
  decide

theorem jsNumToString_quarter : jsNumToString (1/4 : ℚ) = "0.25" := by
  have h1 : fracDigits 20 ((1:ℚ)/4 - (⌊(1:ℚ)/4⌋ : ℚ)) = [2, 5] := by
    rw [show ((1:ℚ)/4 - (⌊(1:ℚ)/4⌋ : ℚ)) = 1/4 by norm_num]
    rw [fracDigits_succ_ne _ _ (by norm_num)]
    rw [show ((1:ℚ)/4 * 10 - (⌊(1:ℚ)/4 * 10⌋ : ℚ)) = 1/2 by norm_num]
    rw [fracDigits_succ_ne _ _ (by norm_num)]
    norm_num [fracDigits_of_zero]
    decide
  rw [jsNumToString, if_neg (by norm_num), jsNumToStringNonneg]
  rw [h1]
  norm_num
  decide

theorem jsNumToString_ten : jsNumToString (10 : ℚ) = "10" := by
  rw [jsNumToString, if_neg (by norm_num), jsNumToStringNonneg]
  rw [show ((10:ℚ) - (⌊(10:ℚ)⌋ : ℚ)) = 0 by norm_num, fracDigits_of_zero]
  norm_num
  decide

theorem toFixed6_half : toFixed6 (1/2 : ℚ) = "0.500000" := by
  have h : toFixedRound (1/2 : ℚ) = 500000 := by
    rw [toFixedRound,
      show (|(1:ℚ)/2| * 1000000 + 1/2) = 1000001/2 by rw [abs_of_nonneg] <;> norm_num]
    norm_num
    decide
  rw [toFixed6, toFixedIntPart, toFixedFrac, if_neg (by norm_num), h]
  decide

theorem toFixed6_quarter : toFixed6 (1/4 : ℚ) = "0.250000" := by
  have h : toFixedRound (1/4 : ℚ) = 250000 := by
    rw [toFixedRound,
      show (|(1:ℚ)/4| * 1000000 + 1/2) = 500001/2 by rw [abs_of_nonneg] <;> norm_num]
    norm_num
    decide
  rw [toFixed6, toFixedIntPart, toFixedFrac, if_neg (by norm_num), h]
  decide

theorem replaceFirstComma_of_no_comma (l : List Char) (h : l.contains ',' = false) :
    replaceFirstCommaList l = l := by
  induction l with
  | nil => rfl
  | cons c cs ih =>
    simp only [List.contains_cons, Bool.or_eq_false_iff] at h
    rw [replaceFirstCommaList, if_neg (by simpa [eq_comm] using beq_eq_false_iff_ne.mp h.1)]
    rw [ih h.2]

theorem chunksOfFuel_flatten {α : Type} (n : ℕ) :
    ∀ l : List α, l.length ≤ n → (chunksOfFuel n l).flatten = l := by
  induction n with
  | zero =>
    intro l h
    rw [List.length_eq_zero.mp (Nat.le_zero.mp h)]
    rfl
  | succ n ih =>
    intro l h
    match l with
    | [] => rfl
    | x :: xs =>
      rw [chunksOfFuel, List.flatten_cons, ih _ (by simp [CHUNK_SIZE] at h ⊢; omega)]
      exact List.take_append_drop _ _

theorem chunksOf_flatten {α : Type} (l : List α) : (chunksOf l).flatten = l :=
  chunksOfFuel_flatten l.length l le_rfl

theorem chunksOfFuel_length_le {α : Type} (n : ℕ) :
    ∀ (l : List α) (c : List α), c ∈ chunksOfFuel n l → c.length ≤ CHUNK_SIZE := by
  induction n with
  | zero => intro l c hc; simp [chunksOfFuel] at hc
  | succ n ih =>
    intro l c hc
    match l with
    | [] => simp [chunksOfFuel] at hc
    | x :: xs =>
      rw [chunksOfFuel, List.mem_cons] at hc
      rcases hc with h | h
      · rw [h, List.length_take]
        exact min_le_left _ _
      · exact ih _ _ h

theorem chunksOf_length_le {α : Type} (l : List α) (c : List α) (hc : c ∈ chunksOf l) :
    c.length ≤ CHUNK_SIZE :=
  chunksOfFuel_length_le l.length l c hc

theorem mkFiles_map_content (base : String) :
    ∀ (k : ℕ) (cs : List (List String)),
      (mkFiles base k cs).map OutputFile.content = cs.map (String.intercalate "\n") := by
  intro k cs
  induction cs generalizing k with
  | nil => rfl
  | cons c cs ih => simp [mkFiles, ih]

theorem mkFiles_map_name (base : String) :
    ∀ (k : ℕ) (cs : List (List String)),
      (mkFiles base k cs).map OutputFile.name =
        (List.range' k cs.length).map (fun i => base ++ "_part" ++ Nat.repr i ++ ".txt") := by
  intro k cs
  induction cs generalizing k with
  | nil => rfl
  | cons c cs ih => simp [mkFiles, List.range', ih]

theorem fileParts_cons_file (k : ℕ) (f : OutputFile) (tr : List GenEvent) :
    fileParts (GenEvent.file k f :: tr) = k :: fileParts tr := rfl

theorem progressValues_cons_file (k : ℕ) (f : OutputFile) (tr : List GenEvent) :
    progressValues (GenEvent.file k f :: tr) = progressValues tr := rfl

theorem progressValues_cons_totalFiles (n : ℕ) (tr : List GenEvent) :
    progressValues (GenEvent.totalFiles n :: tr) = progressValues tr := rfl

theorem fileParts_fileEvents (base : String) :
    ∀ (k : ℕ) (cs : List (List String)),
      fileParts (fileEvents base k cs) = List.range' k cs.length := by
  intro k cs
  induction cs generalizing k with
  | nil => rfl
  | cons c cs ih =>
    rw [fileEvents, fileParts_cons_file, ih (k + 1)]
    rfl

theorem progressValues_fileEvents (base : String) (k : ℕ) (cs : List (List String)) :
    progressValues (fileEvents base k cs) = [] := by
  induction cs generalizing k with
  | nil => rfl
  | cons c cs ih =>
    rw [fileEvents, progressValues_cons_file, ih (k + 1)]

theorem progressValues_append (a b : List GenEvent) :
    progressValues (a ++ b) = progressValues a ++ progressValues b :=
  List.filterMap_append a b _

theorem fileParts_append (a b : List GenEvent) :
    fileParts (a ++ b) = fileParts a ++ fileParts b :=
  List.filterMap_append a b _

theorem fileParts_progressEvents (t : ℕ) : fileParts (progressEvents t) = [] := by
  rw [fileParts, progressEvents, List.filterMap_filterMap]
  rw [List.filterMap_eq_nil_iff]
  intro j _
  split <;> rfl

theorem progressValues_progressEvents (t : ℕ) :
    progressValues (progressEvents t) =
      (List.range t).filterMap fun j =>
        if (j + 1) % 100 = 0 ∨ j + 1 = t then
          some (((j + 1 : ℕ) : ℚ) / (t : ℚ) * 100)
        else none := by
  rw [progressValues, progressEvents, List.filterMap_filterMap]
  congr 1
  funext j
  split <;> rfl

theorem digitChar_isDigit (d : ℕ) (h : d < 10) : (Nat.digitChar d).isDigit = true := by
  interval_cases d <;> decide

/-! ## Claim theorems -/

/-- Claim C5: when the inward offset (the negative `turf.buffer`) collapses
the region to empty — the library returns `undefined` or a geometry with no
coordinate rings (no first ring, for the generator variant) — both variants
fail with the region-too-small error, and neither variant ever returns
successfully with such an empty polygon. -/
theorem offset_empty_check (br : BufferResult) (b : Option BufferResult) (good : BufferResult) :
    (checkBuffered1 none = Except.error GeoError.regionTooSmall) ∧
    (br.coordinates = [] → checkBuffered1 (some br) = Except.error GeoError.regionTooSmall) ∧
    (checkBuffered1 b = Except.ok good → good.coordinates ≠ []) ∧
    (checkBuffered2 none = Except.error GeoError.regionTooSmall) ∧
    (br.coordinates = [] ∨ br.coordinates.head? = some [] →
      checkBuffered2 (some br) = Except.error GeoError.regionTooSmall) ∧
    (checkBuffered2 b = Except.ok good →
      good.coordinates ≠ [] ∧ good.coordinates.head? ≠ some []) := by
  refine ⟨rfl, ?_, ?_, rfl, ?_, ?_⟩
  · intro h
    simp [checkBuffered1, h]
  · intro h
    match b with
    | none => exact absurd h (by simp [checkBuffered1])
    | some br' =>
      rw [checkBuffered1] at h
      split at h
      · exact absurd h (by simp)
      · rename_i hlen
        cases h
        intro hnil
        exact hlen (by simp [hnil])
  · intro h
    rcases h with h | h
    · rw [checkBuffered2, h]
      rfl
    · rw [checkBuffered2]
      rcases hc : br.coordinates with _ | ⟨ring, rest⟩
      · rfl
      · rw [hc] at h
        simp only [List.head?, Option.some.injEq] at h
        rw [h]
        rfl
  · intro h
    match b with
    | none => exact absurd h (by simp [checkBuffered2])
    | some ⟨[]⟩ => exact absurd h (by simp [checkBuffered2])
    | some ⟨ring :: rest⟩ =>
      simp only [checkBuffered2] at h
      by_cases hring : ring.isEmpty = true
      · rw [if_pos hring] at h
        exact absurd h (by simp)
      · rw [if_neg hring] at h
        cases h
        refine ⟨by simp, ?_⟩
        simp only [List.head?, Option.some.injEq]
        intro hr
        exact hring (by simp [Option.some_inj.mp hr])

/-- Witness for C5 at concrete inputs: a buffer result with no rings is
rejected by both variants. -/
theorem offset_empty_check_witness :
    (BufferResult.mk []).coordinates = [] ∧
    checkBuffered1 (some (BufferResult.mk [])) = Except.error GeoError.regionTooSmall ∧
    checkBuffered2 (some (BufferResult.mk [])) = Except.error GeoError.regionTooSmall :=
  ⟨rfl,
   (offset_empty_check (BufferResult.mk []) none (BufferResult.mk [])).2.1 rfl,
   (offset_empty_check (BufferResult.mk []) none (BufferResult.mk [])).2.2.2.2.1 (Or.inl rfl)⟩

/-- Claim C6 (amended): a bare Polygon/MultiPolygon geometry is used
directly by both variants, and a FeatureCollection yields the geometry of
its first feature whose geometry type is Polygon or MultiPolygon; but a
Feature's geometry is used only by the promise variant WHEN it is a
Polygon/MultiPolygon (otherwise the no-polygon-geometry error), while the
generator variant uses a Feature's non-null geometry unconditionally, and
when the generator variant finds no geometry its no-polygon-geometry error
is replaced by the generic processing error by its catch-all handler. -/
theorem normalization_amended (g : Geometry) (fs : List (Option Geometry)) :
    (isPolyType g = true →
      promiseNormalize (GeoJsonInput.geometry g) = Except.ok g ∧
      generatorNormalize (GeoJsonInput.geometry g) = Except.ok g ∧
      promiseNormalize (GeoJsonInput.feature (some g)) = Except.ok g ∧
      generatorNormalize (GeoJsonInput.feature (some g)) = Except.ok g) ∧
    (isPolyType g = false →
      promiseNormalize (GeoJsonInput.geometry g) = Except.error GeoError.noPolygonGeometry ∧
      generatorNormalize (GeoJsonInput.geometry g) = Except.error GeoError.processingError ∧
      promiseNormalize (GeoJsonInput.feature (some g)) = Except.error GeoError.noPolygonGeometry ∧
      generatorNormalize (GeoJsonInput.feature (some g)) = Except.ok g) ∧
    (promiseNormalize (GeoJsonInput.feature none) = Except.error GeoError.noPolygonGeometry ∧
     generatorNormalize (GeoJsonInput.feature none) = Except.error GeoError.processingError) ∧
    (promiseNormalize (GeoJsonInput.featureCollection fs) =
      (match firstPolyGeom fs with
       | some g0 => Except.ok g0
       | none => Except.error GeoError.noPolygonGeometry) ∧
     generatorNormalize (GeoJsonInput.featureCollection fs) =
      (match firstPolyGeom fs with
       | some g0 => Except.ok g0
       | none => Except.error GeoError.processingError)) := by
  refine ⟨?_, ?_, ⟨rfl, rfl⟩, ?_⟩
  · intro h
    exact ⟨by simp [promiseNormalize, h], by simp [generatorNormalize, h], by
      simp [promiseNormalize, h], rfl⟩
  · intro h
    exact ⟨by simp [promiseNormalize, h], by simp [generatorNormalize, h, generatorWrap,
      msgStartsWithNeUdalos], by simp [promiseNormalize, h], rfl⟩
  · constructor
    · rw [promiseNormalize]
    · rw [generatorNormalize]
      cases firstPolyGeom fs <;> rfl

/-- Witness for C6 at a concrete input: a bare Polygon geometry is accepted
by both variants. -/
theorem normalization_amended_witness :
    isPolyType (Geometry.mk GeomType.polygon 0) = true ∧
    promiseNormalize (GeoJsonInput.geometry (Geometry.mk GeomType.polygon 0)) =
      Except.ok (Geometry.mk GeomType.polygon 0) ∧
    generatorNormalize (GeoJsonInput.geometry (Geometry.mk GeomType.polygon 0)) =
      Except.ok (Geometry.mk GeomType.polygon 0) :=
  ⟨by decide,
   ((normalization_amended (Geometry.mk GeomType.polygon 0) []).1 (by decide)).1,
   ((normalization_amended (Geometry.mk GeomType.polygon 0) []).1 (by decide)).2.1⟩

/-- Counterexample for C6 as stated: for a Feature whose geometry is a Point
(so no Polygon/MultiPolygon geometry exists in the input), the generator
variant succeeds with the Point geometry instead of failing, while the
promise variant fails; and for a bare Point geometry the generator variant
surfaces the generic processing error, not the no-polygon-geometry error. -/
theorem normalization_claim_counterexample :
    generatorNormalize (GeoJsonInput.feature (some (Geometry.mk GeomType.point 7))) =
      Except.ok (Geometry.mk GeomType.point 7) ∧
    promiseNormalize (GeoJsonInput.feature (some (Geometry.mk GeomType.point 7))) =
      Except.error GeoError.noPolygonGeometry ∧
    generatorNormalize (GeoJsonInput.geometry (Geometry.mk GeomType.point 3)) =
      Except.error GeoError.processingError ∧
    GeoError.processingError ≠ GeoError.noPolygonGeometry ∧
    (Except.ok (Geometry.mk GeomType.point 7) :
        Except GeoError Geometry) ≠
      Except.error GeoError.noPolygonGeometry := by
  refine ⟨rfl, rfl, rfl, by decide, ?_⟩
  intro h
  exact Except.noConfusion h

/-- Claim C7: rows matching neither layout contribute nothing (and raise no
error) in both extraction variants, and extraction fails with the
insufficient-points error exactly when fewer than 3 valid points were
extracted. -/
theorem extraction_skip_and_insufficient (rows : List (List Cell)) (li lo : Option ℕ)
    (r : List Cell) (rest : List (List Cell))
    (h1 : rowToPoint1 r = none) (h2 : rowToPoint2 li lo r = none) :
    List.filterMap rowToPoint1 (r :: rest) = List.filterMap rowToPoint1 rest ∧
    List.filterMap (rowToPoint2 li lo) (r :: rest) = List.filterMap (rowToPoint2 li lo) rest ∧
    (parseExcelPoints1 rows = Except.error GeoError.insufficientPoints ↔
      (points1 rows).length < 3) ∧
    (parseExcelPoints2 rows = Except.error GeoError.insufficientPoints ↔
      (points2 rows).length < 3) := by
  refine ⟨?_, ?_, ?_, ?_⟩
  · simp [List.filterMap_cons, h1]
  · simp [List.filterMap_cons, h2]
  · by_cases hlen : (points1 rows).length < 3 <;> simp [parseExcelPoints1, hlen]
  · by_cases hlen : (points2 rows).length < 3 <;> simp [parseExcelPoints2, hlen]

/-- Witness for C7 at concrete inputs: the row `["abc"]` fails both layouts
and is skipped; the empty sheet has 0 < 3 points and yields the
insufficient-points error. -/
theorem extraction_skip_and_insufficient_witness :
    List.filterMap rowToPoint1 ([Cell.str "abc"] :: ([] : List (List Cell))) =
      List.filterMap rowToPoint1 ([] : List (List Cell)) ∧
    List.filterMap (rowToPoint2 none none) ([Cell.str "abc"] :: ([] : List (List Cell))) =
      List.filterMap (rowToPoint2 none none) ([] : List (List Cell)) ∧
    (parseExcelPoints1 [] = Except.error GeoError.insufficientPoints ↔
      (points1 []).length < 3) ∧
    (parseExcelPoints2 [] = Except.error GeoError.insufficientPoints ↔
      (points2 []).length < 3) :=
  extraction_skip_and_insufficient [] none none [Cell.str "abc"] [] (by decide) (by decide)

/-- Claim C9: when the first cell is a string containing a comma, both
variants attempt ONLY the single-cell parse (the rest of the row is never
consulted), and the row is skipped when that parse fails even though the
first two cells hold parseable numbers (concrete instance: `["1,x", "2"]`). -/
theorem single_cell_precedence (s : String) (rest : List Cell)
    (h : jsIncludesComma s = true) :
    rowToPoint1 (Cell.str s :: rest) = singleCellParse1 s ∧
    rowToPoint2 none none (Cell.str s :: rest) = singleCellParse2 s ∧
    rowToPoint1 [Cell.str "1,x", Cell.str "2"] = none ∧
    rowToPoint2 none none [Cell.str "1,x", Cell.str "2"] = none ∧
    jsParseFloat "1,x" = some 1 ∧ jsParseFloat "2" = some 2 := by
  refine ⟨?_, ?_, ?_, ?_, ?_, ?_⟩
  · rw [rowToPoint1, if_pos h]
  · have hstep : rowToPoint2 none none (Cell.str s :: rest) =
        fallbackParse2 (Cell.str s :: rest) := rfl
    rw [hstep, fallbackParse2]
    rw [show getCellStr (Cell.str s :: rest) 0 = s from rfl]
    rw [if_pos h]
  · decide
  · decide
  · simp [jsParseFloat, parseFloatChars, takeDigits, parseSignChars, parseExponentChars,
      digitsToNat, isJsSpace]
  · simp [jsParseFloat, parseFloatChars, takeDigits, parseSignChars, parseExponentChars,
      digitsToNat, isJsSpace]

/-- Witness for C9 at a concrete input: the row `["3,4", "9"]` is parsed
from its first cell alone. -/
theorem single_cell_precedence_witness :
    jsIncludesComma "3,4" = true ∧
    rowToPoint1 (Cell.str "3,4" :: [Cell.str "9"]) = singleCellParse1 "3,4" ∧
    rowToPoint2 none none (Cell.str "3,4" :: [Cell.str "9"]) = singleCellParse2 "3,4" :=
  ⟨by decide,
   (single_cell_precedence "3,4" [Cell.str "9"] (by decide)).1,
   (single_cell_precedence "3,4" [Cell.str "9"] (by decide)).2.1⟩

/-- Claim C10: header-indexed parsing applies only when the first row names
both a recognised latitude column and a recognised longitude column; when
one or both are missing, every row — including the header row itself — is
parsed by the positional fallback (a pure header row such as
`["lat", "lon"]` then yields no point, its cells being non-numeric). -/
theorem header_override_only_both (rows : List (List Cell)) (i j : ℕ) :
    (((headerIdx rows).1 = none ∨ (headerIdx rows).2 = none) →
      points2 rows = rows.filterMap (rowToPoint2 none none)) ∧
    ((headerIdx rows).1 = some i → (headerIdx rows).2 = some j →
      points2 rows = rows.filterMap (rowToPoint2 (some i) (some j))) ∧
    rowToPoint2 none none [Cell.str "lat", Cell.str "lon"] = none := by
  refine ⟨?_, ?_, by decide⟩
  · intro h
    rw [points2]
    congr 1
    funext row
    rcases h with h | h
    · rw [h]
      cases (headerIdx rows).2 <;> cases row <;> rfl
    · rw [h]
      cases (headerIdx rows).1 <;> cases row <;> rfl
  · intro h1 h2
    rw [points2, h1, h2]

/-- Witness for C10 at a concrete input: a sheet whose first row names only
a latitude column falls back to positional parsing for every row. -/
theorem header_override_only_both_witness :
    ((headerIdx [[Cell.str "lat", Cell.str "5"]]).1 = none ∨
      (headerIdx [[Cell.str "lat", Cell.str "5"]]).2 = none) ∧
    points2 [[Cell.str "lat", Cell.str "5"]] =
      [[Cell.str "lat", Cell.str "5"]].filterMap (rowToPoint2 none none) :=
  ⟨Or.inr (by decide),
   (header_override_only_both [[Cell.str "lat", Cell.str "5"]] 0 0).1 (Or.inr (by decide))⟩

/-- Claim C1: for every non-empty filtered point sequence, every emitted
batch of both chunkers holds at most `CHUNK_SIZE` (200) lines, the
concatenation of all batches in emission order is exactly the formatted
line sequence (no line missing, none duplicated), and the emitted files'
contents are precisely the batches joined with newlines. -/
theorem chunkResults_size_and_concat (pts : List GeoPoint) (regionName : String)
    (radiusKm : ℚ) (hne : pts ≠ []) :
    ((chunksOf (formattedLines1 regionName radiusKm pts)).all
        fun c => c.length ≤ CHUNK_SIZE) = true ∧
    (chunksOf (formattedLines1 regionName radiusKm pts)).flatten =
      formattedLines1 regionName radiusKm pts ∧
    (outputFiles1 regionName radiusKm pts).map OutputFile.content =
      (chunksOf (formattedLines1 regionName radiusKm pts)).map (String.intercalate "\n") ∧
    ((chunksOf (formattedLines2 regionName radiusKm pts)).all
        fun c => c.length ≤ CHUNK_SIZE) = true ∧
    (chunksOf (formattedLines2 regionName radiusKm pts)).flatten =
      formattedLines2 regionName radiusKm pts ∧
    (outputFiles2 regionName radiusKm pts).map OutputFile.content =
      (chunksOf (formattedLines2 regionName radiusKm pts)).map (String.intercalate "\n") := by
  refine ⟨?_, chunksOf_flatten _, ?_, ?_, chunksOf_flatten _, ?_⟩
  · rw [List.all_eq_true]
    intro c hc
    rw [decide_eq_true_eq]
    exact chunksOf_length_le _ _ hc
  · rw [outputFiles1]
    exact mkFiles_map_content _ 1 _
  · rw [List.all_eq_true]
    intro c hc
    rw [decide_eq_true_eq]
    exact chunksOf_length_le _ _ hc
  · rw [outputFiles2]
    exact mkFiles_map_content _ 1 _

/-- Witness for C1 at a concrete input: one point, label `"a"`, radius 1. -/
theorem chunkResults_size_and_concat_witness :
    ((chunksOf (formattedLines1 "a" 1 [GeoPoint.mk 1 2])).all
        fun c => c.length ≤ CHUNK_SIZE) = true ∧
    (chunksOf (formattedLines1 "a" 1 [GeoPoint.mk 1 2])).flatten =
      formattedLines1 "a" 1 [GeoPoint.mk 1 2] ∧
    (outputFiles1 "a" 1 [GeoPoint.mk 1 2]).map OutputFile.content =
      (chunksOf (formattedLines1 "a" 1 [GeoPoint.mk 1 2])).map (String.intercalate "\n") ∧
    ((chunksOf (formattedLines2 "a" 1 [GeoPoint.mk 1 2])).all
        fun c => c.length ≤ CHUNK_SIZE) = true ∧
    (chunksOf (formattedLines2 "a" 1 [GeoPoint.mk 1 2])).flatten =
      formattedLines2 "a" 1 [GeoPoint.mk 1 2] ∧
    (outputFiles2 "a" 1 [GeoPoint.mk 1 2]).map OutputFile.content =
      (chunksOf (formattedLines2 "a" 1 [GeoPoint.mk 1 2])).map (String.intercalate "\n") :=
  chunkResults_size_and_concat [GeoPoint.mk 1 2] "a" 1 (by simp)

/-- Claim C3 (amended): in the generator variant batch `k` is named
`"<slug(label)>_part<k>.txt"` with `k` starting at 1 and increasing by 1 per
batch; the promise variant uses the same scheme but with the RAW label,
`"<label>_part<k>.txt"`.  (The slug keeps underscores, since the code strips
via `[^\w\-]+` and `\w` includes `_`.) -/
theorem batch_naming_amended (regionName : String) (radiusKm : ℚ) (pts : List GeoPoint) :
    (outputFiles2 regionName radiusKm pts).map OutputFile.name =
      (List.range' 1 (chunksOf (formattedLines2 regionName radiusKm pts)).length).map
        (fun k => slugify regionName ++ "_part" ++ Nat.repr k ++ ".txt") ∧
    (outputFiles1 regionName radiusKm pts).map OutputFile.name =
      (List.range' 1 (chunksOf (formattedLines1 regionName radiusKm pts)).length).map
        (fun k => regionName ++ "_part" ++ Nat.repr k ++ ".txt") :=
  ⟨by rw [outputFiles2]; exact mkFiles_map_name _ 1 _,
   by rw [outputFiles1]; exact mkFiles_map_name _ 1 _⟩

/-- Counterexample for C3 as stated: the promise variant names its file
`"My Region_part1.txt"` from the raw label, not the claimed
`"my-region_part1.txt"` from the slug; and the code's slug keeps the
underscore in `"a_b"` while the claimed slug (alphanumerics/hyphen only)
strips it. -/
theorem batch_naming_claim_counterexample :
    (outputFiles1 "My Region" 1 [GeoPoint.mk 1 2]).map OutputFile.name =
      ["My Region_part1.txt"] ∧
    claimSlug "My Region" = "my-region" ∧
    ("My Region_part1.txt" : String) ≠ "my-region_part1.txt" ∧
    slugify "a_b" = "a_b" ∧
    claimSlug "a_b" = "ab" ∧
    ("a_b" : String) ≠ "ab" := by
  have h1 : formattedLines1 "My Region" 1 [GeoPoint.mk 1 2] =
      [formatLine1 "My Region" 1 (GeoPoint.mk 1 2)] := rfl
  have h2 : chunksOf [formatLine1 "My Region" 1 (GeoPoint.mk 1 2)] =
      [[formatLine1 "My Region" 1 (GeoPoint.mk 1 2)]] := rfl
  refine ⟨?_, by decide, by decide, by decide, by decide, by decide⟩
  rw [outputFiles1, h1, h2, mkFiles, mkFiles]
  simp only [List.map]
  decide

/-- Claim C2 (amended): the promise variant formats every accepted point
exactly as the claimed `"<label>:<radiusKm>km:<lat>,<lon>"` with `toFixed(6)`
coordinates — whose fractional part always has exactly 6 digit characters —
but the generator variant instead emits
`"<slug(label)>:<radiusKm>km:<lat>, <lon>"`: slugged label, default number
rendering (no fixed 6-digit precision) and a space after the comma. -/
theorem formatLines_amended (regionName : String) (radiusKm : ℚ) (p : GeoPoint) :
    formatLine1 regionName radiusKm p = claimFormatLine regionName radiusKm p ∧
    toFixed6 p.lat = toFixedIntPart p.lat ++ "." ++ toFixedFrac p.lat ∧
    (toFixedFrac p.lat).length = 6 ∧
    ((toFixedFrac p.lat).data.all Char.isDigit) = true ∧
    (toFixedFrac p.lon).length = 6 ∧
    ((toFixedFrac p.lon).data.all Char.isDigit) = true ∧
    formatLine2 (slugify regionName) radiusKm p =
      slugify regionName ++ ":" ++ jsNumToString radiusKm ++ "km:" ++
        jsNumToString p.lat ++ ", " ++ jsNumToString p.lon := by
  have hd : ∀ x : ℕ, (Nat.digitChar (x % 10)).isDigit = true :=
    fun x => digitChar_isDigit _ (Nat.mod_lt _ (by norm_num))
  refine ⟨rfl, rfl, rfl, ?_, rfl, ?_, rfl⟩
  · simp [toFixedFrac, sixFracChars, List.all, hd]
  · simp [toFixedFrac, sixFracChars, List.all, hd]

/-- Counterexample for C2 as stated: for label `"Zone A"`, radius 10 and the
filtered point (0.5, 0.25), the generator variant emits
`"zone-a:10km:0.5, 0.25"` whereas the claimed format is
`"Zone A:10km:0.500000,0.250000"`. -/
theorem formatLine_claim_counterexample :
    formattedLines2 "Zone A" 10 [GeoPoint.mk (1/2) (1/4)] = ["zone-a:10km:0.5, 0.25"] ∧
    claimFormatLine "Zone A" 10 (GeoPoint.mk (1/2) (1/4)) =
      "Zone A:10km:0.500000,0.250000" ∧
    ("zone-a:10km:0.5, 0.25" : String) ≠ "Zone A:10km:0.500000,0.250000" := by
  refine ⟨?_, ?_, by decide⟩
  · have hline : formatLine2 (slugify "Zone A") 10 (GeoPoint.mk (1/2) (1/4)) =
        "zone-a:10km:0.5, 0.25" := by
      rw [formatLine2]
      rw [show slugify "Zone A" = "zone-a" from by decide]
      rw [show (GeoPoint.mk (1/2) (1/4)).lat = 1/2 from rfl]
      rw [show (GeoPoint.mk (1/2) (1/4)).lon = 1/4 from rfl]
      rw [jsNumToString_half, jsNumToString_quarter, jsNumToString_ten]
      decide
    rw [show formattedLines2 "Zone A" 10 [GeoPoint.mk (1/2) (1/4)] =
      [formatLine2 (slugify "Zone A") 10 (GeoPoint.mk (1/2) (1/4))] from rfl, hline]
  · rw [claimFormatLine]
    rw [show (GeoPoint.mk (1/2) (1/4)).lat = 1/2 from rfl]
    rw [show (GeoPoint.mk (1/2) (1/4)).lon = 1/4 from rfl]
    rw [toFixed6_half, toFixed6_quarter, jsNumToString_ten]
    decide

/-- A two-string-column row with both cells numeric parses positionally
(promise variant, case 2). -/
theorem twoColParse1_eval (s1 s2 : String) (rest : List Cell) (q1 q2 : ℚ)
    (h1 : parseFloatChars s1.toList = some q1) (h2 : parseFloatChars s2.toList = some q2) :
    twoColParse1 (Cell.str s1 :: Cell.str s2 :: rest) = some (GeoPoint.mk q1 q2) := by
  rw [twoColParse1, if_pos (by simp)]
  rw [show getCellStr (Cell.str s1 :: Cell.str s2 :: rest) 0 = s1 from rfl]
  rw [show getCellStr (Cell.str s1 :: Cell.str s2 :: rest) 1 = s2 from rfl]
  rw [h1, h2]

/-- Claim C4 (amended): extraction performs NO latitude/longitude range
validation — any comma-free first cell and second cell that `parseFloat` to
numbers are accepted as-is by both variants, whatever their magnitude. -/
theorem extraction_no_range_check (s1 s2 : String) (q1 q2 : ℚ) (rest : List Cell)
    (h0 : jsIncludesComma s1 = false) (h0b : jsIncludesComma s2 = false)
    (h1 : jsParseFloat s1 = some q1) (h2 : jsParseFloat s2 = some q2) :
    rowToPoint1 (Cell.str s1 :: Cell.str s2 :: rest) = some (GeoPoint.mk q1 q2) ∧
    rowToPoint2 none none (Cell.str s1 :: Cell.str s2 :: rest) = some (GeoPoint.mk q1 q2) := by
  have h1' : parseFloatChars s1.toList = some q1 := h1
  have h2' : parseFloatChars s2.toList = some q2 := h2
  constructor
  · rw [rowToPoint1, if_neg (by simp [h0])]
    exact twoColParse1_eval s1 s2 rest q1 q2 h1' h2'
  · have hstep : rowToPoint2 none none (Cell.str s1 :: Cell.str s2 :: rest) =
        fallbackParse2 (Cell.str s1 :: Cell.str s2 :: rest) := rfl
    rw [hstep, fallbackParse2]
    rw [show getCellStr (Cell.str s1 :: Cell.str s2 :: rest) 0 = s1 from rfl]
    rw [if_neg (by simp [h0])]
    rw [twoColParse2, if_pos (by simp)]
    rw [show getCellStr (Cell.str s1 :: Cell.str s2 :: rest) 0 = s1 from rfl]
    rw [show getCellStr (Cell.str s1 :: Cell.str s2 :: rest) 1 = s2 from rfl]
    rw [replaceFirstComma_of_no_comma _ h0, replaceFirstComma_of_no_comma _ h0b]
    rw [h1', h2']

/-- Witness for the amended C4 at a concrete input: the out-of-range pair
`("1000", "500")` is accepted by both variants. -/
theorem extraction_no_range_check_witness :
    jsIncludesComma "1000" = false ∧
    rowToPoint1 [Cell.str "1000", Cell.str "500"] = some (GeoPoint.mk 1000 500) ∧
    rowToPoint2 none none [Cell.str "1000", Cell.str "500"] = some (GeoPoint.mk 1000 500) :=
  ⟨by decide,
   (extraction_no_range_check "1000" "500" 1000 500 [] (by decide) (by decide)
     (by simp [jsParseFloat, parseFloatChars, takeDigits, parseSignChars, parseExponentChars,
       digitsToNat, isJsSpace])
     (by simp [jsParseFloat, parseFloatChars, takeDigits, parseSignChars, parseExponentChars,
       digitsToNat, isJsSpace])).1,
   (extraction_no_range_check "1000" "500" 1000 500 [] (by decide) (by decide)
     (by simp [jsParseFloat, parseFloatChars, takeDigits, parseSignChars, parseExponentChars,
       digitsToNat, isJsSpace])
     (by simp [jsParseFloat, parseFloatChars, takeDigits, parseSignChars, parseExponentChars,
       digitsToNat, isJsSpace])).2⟩

/-- Counterexample for C4 as stated: the sheet
`[["1000","500"],["0","1"],["1","0"]]` extracts the point (1000, 500),
whose latitude exceeds 90 and whose longitude exceeds 180. -/
theorem extraction_range_counterexample :
    points1 [[Cell.str "1000", Cell.str "500"], [Cell.str "0", Cell.str "1"],
        [Cell.str "1", Cell.str "0"]] =
      [GeoPoint.mk 1000 500, GeoPoint.mk 0 1, GeoPoint.mk 1 0] ∧
    ¬ ((1000 : ℚ) ≤ 90) ∧ ¬ ((500 : ℚ) ≤ 180) := by
  have e1000 : parseFloatChars "1000".toList = some 1000 := by
    simp [parseFloatChars, takeDigits, parseSignChars, parseExponentChars, digitsToNat, isJsSpace]
  have e500 : parseFloatChars "500".toList = some 500 := by
    simp [parseFloatChars, takeDigits, parseSignChars, parseExponentChars, digitsToNat, isJsSpace]
  have e0 : parseFloatChars "0".toList = some 0 := by
    simp [parseFloatChars, takeDigits, parseSignChars, parseExponentChars, digitsToNat, isJsSpace]
  have e1 : parseFloatChars "1".toList = some 1 := by
    simp [parseFloatChars, takeDigits, parseSignChars, parseExponentChars, digitsToNat, isJsSpace]
  have hr1 : rowToPoint1 [Cell.str "1000", Cell.str "500"] = some (GeoPoint.mk 1000 500) := by
    rw [rowToPoint1, if_neg (by decide)]
    exact twoColParse1_eval "1000" "500" [] 1000 500 e1000 e500
  have hr2 : rowToPoint1 [Cell.str "0", Cell.str "1"] = some (GeoPoint.mk 0 1) := by
    rw [rowToPoint1, if_neg (by decide)]
    exact twoColParse1_eval "0" "1" [] 0 1 e0 e1
  have hr3 : rowToPoint1 [Cell.str "1", Cell.str "0"] = some (GeoPoint.mk 1 0) := by
    rw [rowToPoint1, if_neg (by decide)]
    exact twoColParse1_eval "1" "0" [] 1 0 e1 e0
  refine ⟨?_, by norm_num, by norm_num⟩
  rw [points1]
  simp [List.filterMap_cons, hr1, hr2, hr3]

theorem progress_pairwise (t : ℕ) :
    (progressValues (progressEvents t)).Pairwise (· ≤ ·) := by
  rw [progressValues_progressEvents]
  rw [List.pairwise_filterMap]
  refine (List.pairwise_lt_range t).imp ?_
  intro a b hab v hv v' hv'
  split at hv
  · split at hv'
    · simp only [Option.mem_def, Option.some.injEq] at hv hv'
      subst hv
      subst hv'
      have h1 : ((a + 1 : ℕ) : ℚ) ≤ ((b + 1 : ℕ) : ℚ) := by
        exact_mod_cast Nat.succ_le_succ hab.le
      exact mul_le_mul_of_nonneg_right
        (div_le_div_of_nonneg_right h1 (by positivity)) (by norm_num)
    · simp at hv'
  · simp at hv

theorem progress_le_100 (t : ℕ) (v : ℚ)
    (hv : v ∈ progressValues (progressEvents t)) : v ≤ 100 := by
  rw [progressValues_progressEvents, List.mem_filterMap] at hv
  obtain ⟨j, hj, hjv⟩ := hv
  rw [List.mem_range] at hj
  split at hjv
  · simp only [Option.some.injEq] at hjv
    subst hjv
    have ht' : (0 : ℚ) < t := by exact_mod_cast Nat.zero_lt_of_lt hj
    have hle : ((j + 1 : ℕ) : ℚ) ≤ (t : ℚ) := by exact_mod_cast hj
    calc ((j + 1 : ℕ) : ℚ) / (t : ℚ) * 100 ≤ 1 * 100 :=
        mul_le_mul_of_nonneg_right ((div_le_one ht').mpr hle) (by norm_num)
      _ = 100 := by norm_num
  · exact absurd hjv (by simp)

/-- Claim C8: within one run of the generator, the yielded progress
percentages are monotonically non-decreasing and never above 100 (the
processed count never exceeds the total), and the `OutputFile` values are
yielded with part numbers `1, 2, …` — strictly increasing from part 1. -/
theorem generator_progress_monotone (cells : List HexCell) (regionName : String)
    (radiusKm : ℚ) :
    (progressValues (generatorTrace cells regionName radiusKm)).Pairwise (· ≤ ·) ∧
    ((progressValues (generatorTrace cells regionName radiusKm)).all
        fun v => v ≤ 100) = true ∧
    ∃ n, fileParts (generatorTrace cells regionName radiusKm) = List.range' 1 n := by
  have hkey : progressValues (generatorTrace cells regionName radiusKm) =
      progressValues (progressEvents cells.length) := by
    simp only [generatorTrace]
    split
    · rfl
    · rw [progressValues_append, progressValues_append, progressValues_fileEvents]
      rw [progressValues_cons_totalFiles]
      simp [progressValues]
  refine ⟨?_, ?_, ?_⟩
  · rw [hkey]
    exact progress_pairwise _
  · rw [hkey, List.all_eq_true]
    intro v hv
    rw [decide_eq_true_eq]
    exact progress_le_100 _ v hv
  · simp only [generatorTrace]
    split
    · exact ⟨0, by rw [fileParts_progressEvents]; rfl⟩
    · refine ⟨(chunksOf (((cells.filter HexCell.inside).map HexCell.centroid).map
        (formatLine2 (slugify regionName) radiusKm))).length, ?_⟩
      rw [fileParts_append, fileParts_append, fileParts_progressEvents, fileParts_fileEvents]
      rfl

end Geozona
